import Mathlib

/-!
Shallow embedding of the Ysuite watchdog monitors and kernel-log classifier.

Sources embedded:
* `src/scripts/watchdog_monitor.py` — class `WatchdogMonitor`
* `src/scripts/watchdog_monitor_enhanced.py` — class `EnhancedWatchdogMonitor`
* `src/scripts/analysis/kernel_log_analyzer.py` — class `KernelLogAnalyzer`

Modelling conventions:
* Python floats (metric percentages, `time.time()` instants, thresholds)
  are modelled as `ℚ`.
* The polling loop (`run`) sleeps one second per iteration, so ticks are
  natural numbers `0, 1, 2, …` cast into `ℚ` when passed as `current_time`.
* `trigger_reboot` sleeps five seconds and dispatches the external `reboot`
  command, which terminates the monitoring process; the loop is therefore
  modelled as ending at that dispatch.  `restart_modem_usb` (the enhanced
  monitor's WiFi corrective action) returns normally and the loop continues.
* Logging calls carry no state except `last_log_time` (updated by
  `log_status`); the log text itself is not modelled.
-/

/-- Reason string passed to `trigger_reboot` in `WatchdogMonitor.check_and_trigger`:
`"CPU usage exceeded threshold"` or `"RAM usage exceeded threshold"`. -/
inductive RebootReason where
  | cpu
  | ram
deriving DecidableEq, Repr

/-- State of `WatchdogMonitor` (`watchdog_monitor.py`, `__init__`, lines 24-30):
the three configuration attributes and the three mutable attributes. -/
structure WatchdogMonitor where
  cpu_threshold : ℚ
  ram_threshold : ℚ
  duration_threshold : ℚ
  cpu_high_start : Option ℚ
  ram_high_start : Option ℚ
  last_log_time : ℚ
deriving Repr

/-- `WatchdogMonitor.__init__` (lines 24-30): plain attribute assignment,
no validation of any parameter; both excursion timers start `None` and
`last_log_time` starts `0`. -/
def WatchdogMonitor.init (cpu_threshold ram_threshold duration_threshold : ℚ) :
    WatchdogMonitor :=
  { cpu_threshold := cpu_threshold
    ram_threshold := ram_threshold
    duration_threshold := duration_threshold
    cpu_high_start := none
    ram_high_start := none
    last_log_time := 0 }

/-- `WatchdogMonitor.log_status` (lines 41-51): emit a status line only when
at least 5 seconds passed since `last_log_time`, and record the emission
time.  Returns the new state and whether a line was emitted (the message
text is not modelled). -/
def WatchdogMonitor.log_status (m : WatchdogMonitor) (current_time : ℚ) :
    WatchdogMonitor × Bool :=
  if current_time - m.last_log_time ≥ 5 then
    ({ m with last_log_time := current_time }, true)
  else
    (m, false)

/-- Tail of `check_and_trigger` (lines 91-99): both branches fell through
without an early return, so the status line is (possibly) logged. -/
def WatchdogMonitor.check_tail (m : WatchdogMonitor) (t : ℚ) :
    WatchdogMonitor × Option RebootReason :=
  ((m.log_status t).1, none)

/-- RAM block of `check_and_trigger` (lines 75-89), entered only when the
CPU block did not return early.  Mirrors the source: on `ram_usage >
ram_threshold` either start the timer or, if the elapsed time reaches
`duration_threshold`, call `trigger_reboot` and return; otherwise the
timer is cleared (the source guards the clearing with an
`is not None` test, but that test only gates a log line). -/
def WatchdogMonitor.check_ram (m : WatchdogMonitor) (ram_usage t : ℚ) :
    WatchdogMonitor × Option RebootReason :=
  if ram_usage > m.ram_threshold then
    match m.ram_high_start with
    | none => WatchdogMonitor.check_tail { m with ram_high_start := some t } t
    | some s =>
      if t - s ≥ m.duration_threshold then (m, some RebootReason.ram)
      else m.check_tail t
  else
    WatchdogMonitor.check_tail { m with ram_high_start := none } t

/-- `WatchdogMonitor.check_and_trigger` (lines 53-99).  `cpu_usage` and
`ram_usage` are the sampled values, `t` the value of `time.time()`.
Returns the new state and the reason passed to `trigger_reboot` when a
reboot was triggered (`none` when the method completed without firing). -/
def WatchdogMonitor.check_and_trigger (m : WatchdogMonitor) (cpu_usage ram_usage t : ℚ) :
    WatchdogMonitor × Option RebootReason :=
  -- CPU block (lines 59-73)
  if cpu_usage > m.cpu_threshold then
    match m.cpu_high_start with
    | none => WatchdogMonitor.check_ram { m with cpu_high_start := some t } ram_usage t
    | some s =>
      if t - s ≥ m.duration_threshold then (m, some RebootReason.cpu)
      else m.check_ram ram_usage t
  else
    WatchdogMonitor.check_ram { m with cpu_high_start := none } ram_usage t

/-- `WatchdogMonitor.run` (lines 113-126) over a finite sample stream:
tick `t` observes the `t`-th pair `(cpu_usage, ram_usage)`, one second
apart.  `trigger_reboot` dispatches the `reboot` command, terminating the
process, so the loop ends at the first reboot and reports its tick and
reason. -/
def WatchdogMonitor.run (m : WatchdogMonitor) (t : ℕ) :
    List (ℚ × ℚ) → WatchdogMonitor × Option (ℕ × RebootReason)
  | [] => (m, none)
  | sample :: rest =>
    match m.check_and_trigger sample.1 sample.2 (t : ℚ) with
    | (m', some r) => (m', some (t, r))
    | (m', none) => m'.run (t + 1) rest

/-- Outcome of the basic monitor's polling loop when samples may fail. -/
inductive RunOutcome where
  | finished
  | rebooted (tick : ℕ) (reason : RebootReason)
  | raised
deriving DecidableEq, Repr

/-- `WatchdogMonitor.run` (lines 113-126) when a sampler call may raise:
`psutil` exceptions propagate out of `check_and_trigger` into the `except
Exception` clause of `run`, which logs the error and re-raises, ending the
loop (`raise` on line 126).  An `Except.error` sample therefore terminates
the run with the state unchanged (the exception occurs before any
attribute assignment of that iteration). -/
def WatchdogMonitor.runExc (m : WatchdogMonitor) (t : ℕ) :
    List (Except Unit (ℚ × ℚ)) → WatchdogMonitor × RunOutcome
  | [] => (m, RunOutcome.finished)
  | Except.error _ :: _ => (m, RunOutcome.raised)
  | Except.ok sample :: rest =>
    match m.check_and_trigger sample.1 sample.2 (t : ℚ) with
    | (m', some r) => (m', RunOutcome.rebooted t r)
    | (m', none) => m'.runExc (t + 1) rest

/-! ## Enhanced monitor (`watchdog_monitor_enhanced.py`) -/

/-- Outcome of one WiFi connectivity probe as seen by
`check_wifi_connectivity` (lines 47-77): the probing body either computes
a boolean (interfaces found and gateway pinged, or not), or raises, in
which case the outer `except` clause is taken. -/
inductive WifiProbe where
  | ok (connected : Bool)
  | err
deriving DecidableEq, Repr

/-- `EnhancedWatchdogMonitor.check_wifi_connectivity` (lines 47-77): the
whole body is wrapped in `try/except`, and the `except` clause returns
`False` — a probe that raises is reported as "WiFi not connected". -/
def check_wifi_connectivity : WifiProbe → Bool
  | WifiProbe.ok connected => connected
  | WifiProbe.err => false

/-- Action dispatched by `EnhancedWatchdogMonitor.check_and_trigger`:
`trigger_reboot` with one of the two reason strings, or
`restart_modem_usb` (the WiFi corrective action, lines 196-199). -/
inductive EnhancedAction where
  | rebootCPU
  | rebootRAM
  | wifiRestart
deriving DecidableEq, Repr

/-- State of `EnhancedWatchdogMonitor` (`__init__`, lines 28-36): like the
basic monitor plus `wifi_timeout` and `wifi_down_start`.  No parameter is
validated. -/
structure EnhancedWatchdogMonitor where
  cpu_threshold : ℚ
  ram_threshold : ℚ
  duration_threshold : ℚ
  wifi_timeout : ℚ
  cpu_high_start : Option ℚ
  ram_high_start : Option ℚ
  wifi_down_start : Option ℚ
  last_log_time : ℚ
deriving Repr

/-- `EnhancedWatchdogMonitor.__init__` (lines 28-36): plain attribute
assignment, no validation. -/
def EnhancedWatchdogMonitor.init
    (cpu_threshold ram_threshold duration_threshold wifi_timeout : ℚ) :
    EnhancedWatchdogMonitor :=
  { cpu_threshold := cpu_threshold
    ram_threshold := ram_threshold
    duration_threshold := duration_threshold
    wifi_timeout := wifi_timeout
    cpu_high_start := none
    ram_high_start := none
    wifi_down_start := none
    last_log_time := 0 }

/-- `EnhancedWatchdogMonitor.log_status` (lines 135-147): same 5-second
throttle as the basic monitor. -/
def EnhancedWatchdogMonitor.log_status (m : EnhancedWatchdogMonitor) (current_time : ℚ) :
    EnhancedWatchdogMonitor × Bool :=
  if current_time - m.last_log_time ≥ 5 then
    ({ m with last_log_time := current_time }, true)
  else
    (m, false)

/-- Tail of the enhanced `check_and_trigger` (lines 205-216). -/
def EnhancedWatchdogMonitor.check_tail (m : EnhancedWatchdogMonitor) (t : ℚ) :
    EnhancedWatchdogMonitor × Option EnhancedAction :=
  ((m.log_status t).1, none)

/-- WiFi block of the enhanced `check_and_trigger` (lines 188-203).  When
the down-time reaches `wifi_timeout` the monitor calls
`restart_modem_usb`, resets `wifi_down_start` to `None` (line 198,
`# Reset timer`) and returns; `restart_modem_usb` returns normally, so
the loop keeps polling afterwards. -/
def EnhancedWatchdogMonitor.check_wifi (m : EnhancedWatchdogMonitor)
    (wifi_status : Bool) (t : ℚ) :
    EnhancedWatchdogMonitor × Option EnhancedAction :=
  if !wifi_status then
    match m.wifi_down_start with
    | none => EnhancedWatchdogMonitor.check_tail { m with wifi_down_start := some t } t
    | some s =>
      if t - s ≥ m.wifi_timeout then
        ({ m with wifi_down_start := none }, some EnhancedAction.wifiRestart)
      else m.check_tail t
  else
    match m.wifi_down_start with
    | some _ => EnhancedWatchdogMonitor.check_tail { m with wifi_down_start := none } t
    | none => m.check_tail t

/-- RAM block of the enhanced `check_and_trigger` (lines 172-186). -/
def EnhancedWatchdogMonitor.check_ram (m : EnhancedWatchdogMonitor)
    (ram_usage : ℚ) (wifi_status : Bool) (t : ℚ) :
    EnhancedWatchdogMonitor × Option EnhancedAction :=
  if ram_usage > m.ram_threshold then
    match m.ram_high_start with
    | none =>
      EnhancedWatchdogMonitor.check_wifi { m with ram_high_start := some t } wifi_status t
    | some s =>
      if t - s ≥ m.duration_threshold then (m, some EnhancedAction.rebootRAM)
      else m.check_wifi wifi_status t
  else
    EnhancedWatchdogMonitor.check_wifi { m with ram_high_start := none } wifi_status t

/-- `EnhancedWatchdogMonitor.check_and_trigger` (lines 149-216).  The WiFi
status is computed up front (line 153) from the probe outcome. -/
def EnhancedWatchdogMonitor.check_and_trigger (m : EnhancedWatchdogMonitor)
    (cpu_usage ram_usage : ℚ) (probe : WifiProbe) (t : ℚ) :
    EnhancedWatchdogMonitor × Option EnhancedAction :=
  let wifi_status := check_wifi_connectivity probe
  -- CPU block (lines 156-170)
  if cpu_usage > m.cpu_threshold then
    match m.cpu_high_start with
    | none =>
      EnhancedWatchdogMonitor.check_ram { m with cpu_high_start := some t }
        ram_usage wifi_status t
    | some s =>
      if t - s ≥ m.duration_threshold then (m, some EnhancedAction.rebootCPU)
      else m.check_ram ram_usage wifi_status t
  else
    EnhancedWatchdogMonitor.check_ram { m with cpu_high_start := none }
      ram_usage wifi_status t

/-- `EnhancedWatchdogMonitor.run` (lines 230-243) over a finite stream of
`(cpu_usage, ram_usage, wifi probe)` samples one second apart.  A reboot
terminates the process, ending the loop; a WiFi restart is recorded and
the loop continues with the next tick.  Returns the final state and the
list of `(tick, action)` events in order. -/
def EnhancedWatchdogMonitor.run (m : EnhancedWatchdogMonitor) (t : ℕ) :
    List (ℚ × ℚ × WifiProbe) → EnhancedWatchdogMonitor × List (ℕ × EnhancedAction)
  | [] => (m, [])
  | sample :: rest =>
    match m.check_and_trigger sample.1 sample.2.1 sample.2.2 (t : ℚ) with
    | (m', some EnhancedAction.wifiRestart) =>
      let r := m'.run (t + 1) rest
      (r.1, (t, EnhancedAction.wifiRestart) :: r.2)
    | (m', some a) => (m', [(t, a)])
    | (m', none) => m'.run (t + 1) rest

/-- The throttled status logger driven over a sequence of call instants
(`log_status` is called once per `check_and_trigger` tick, lines 41-51 and
99): returns the instants at which a status line was actually emitted. -/
def WatchdogMonitor.logRun (m : WatchdogMonitor) : List ℚ → List ℚ
  | [] => []
  | t :: ts =>
    match m.log_status t with
    | (m', true) => t :: m'.logRun ts
    | (m', false) => m'.logRun ts

/-! ## Kernel log classifier (`analysis/kernel_log_analyzer.py`)

Every regex in the four pattern lists is a literal string or several
literal segments joined by `.*`, so a pattern is embedded as its list of
literal segments and `re.search(pattern, line, re.IGNORECASE)` as:
lowercase both sides, then find the segments left to right, each strictly
after the end of the previous one's first occurrence (for segment
patterns, matching the earliest occurrence of each segment is complete:
any successful assignment of occurrences can be shifted left). -/

/-- A pattern of `KernelLogAnalyzer`: the literal segments that `.*`
separates in the source regex (a fully literal regex has one segment). -/
abbrev Pat : Type := List String

/-- ASCII-lowercase a character list (`re.IGNORECASE`; all patterns are
ASCII). -/
def lowerStr (s : List Char) : List Char := s.map Char.toLower

/-- Remainder of `s` strictly after the first occurrence of `p`, when `p`
occurs in `s` as a contiguous sublist. -/
def dropAfterMatch (p : List Char) : List Char → Option (List Char)
  | [] => if p.isEmpty then some [] else none
  | c :: rest =>
    if p.isPrefixOf (c :: rest) then some ((c :: rest).drop p.length)
    else dropAfterMatch p rest

/-- Match the lowercased segments in order, each after the previous one. -/
def matchSegs : List (List Char) → List Char → Bool
  | [], _ => true
  | p :: ps, s =>
    match dropAfterMatch p s with
    | some rest => matchSegs ps rest
    | none => false

/-- `re.search(pattern, line, re.IGNORECASE) is not None` for a segment
pattern. -/
def re_search (pat : Pat) (line : List Char) : Bool :=
  matchSegs (pat.map fun seg => lowerStr seg.toList) (lowerStr line)

/-- `line.strip()`: remove leading and trailing whitespace. -/
def stripLine (line : List Char) : List Char :=
  ((line.dropWhile Char.isWhitespace).reverse.dropWhile Char.isWhitespace).reverse

/-- `self.critical_patterns` (lines 33-51). -/
def critical_patterns : List Pat :=
  [ ["Kernel panic"]
  , ["Unable to mount root"]
  , ["Fatal exception"]
  , ["System halted"]
  , ["Oops:"]
  , ["BUG:"]
  , ["Unable to handle kernel"]
  , ["Segmentation fault"]
  , ["Stack overflow"]
  , ["rockchip-pcie", "link", "failed"]    -- r"rockchip-pcie.*link.*failed"
  , ["rockchip-cpufreq", "critical"]       -- r"rockchip-cpufreq.*critical"
  , ["rk3588", "thermal", "critical"]      -- r"rk3588.*thermal.*critical"
  , ["coresight-mali", "fault"]            -- r"coresight-mali.*fault"
  , ["rockchip-efuse", "error"]            -- r"rockchip-efuse.*error"
  , ["rk3588", "panic"]                    -- r"rk3588.*panic"
  , ["rockchip", "fatal", "error"] ]       -- r"rockchip.*fatal.*error"

/-- `self.error_patterns` (lines 53-71). -/
def error_patterns : List Pat :=
  [ ["ERROR:"]
  , ["Failed to"]
  , ["Could not"]
  , ["Unable to"]
  , ["Device not found"]
  , ["Module not found"]
  , ["Timeout"]
  , ["Connection refused"]
  , ["rockchip-pinctrl", "error"]          -- r"rockchip-pinctrl.*error"
  , ["rockchip-saradc", "failed"]          -- r"rockchip-saradc.*failed"
  , ["rockchip-otp", "error"]              -- r"rockchip-otp.*error"
  , ["pcie-rockchip", "error"]             -- r"pcie-rockchip.*error"
  , ["rockchip-cpufreq", "failed"]         -- r"rockchip-cpufreq.*failed"
  , ["rockchip-efuse", "failed"]           -- r"rockchip-efuse.*failed"
  , ["rk3588", "error"]                    -- r"rk3588.*error"
  , ["rockchip", "driver", "failed"] ]     -- r"rockchip.*driver.*failed"

/-- `self.warning_patterns` (lines 73-86). -/
def warning_patterns : List Pat :=
  [ ["WARNING:"]
  , ["Warning:"]
  , ["Deprecated"]
  , ["Obsolete"]
  , ["Experimental"]
  , ["Unstable"]
  , ["rockchip", "warning"]                -- r"rockchip.*warning"
  , ["rk3588", "warning"]                  -- r"rk3588.*warning"
  , ["rockchip-pcie", "warning"]           -- r"rockchip-pcie.*warning"
  , ["rockchip-cpufreq", "warning"]        -- r"rockchip-cpufreq.*warning"
  , ["coresight-mali", "warning"] ]        -- r"coresight-mali.*warning"

/-- `self.info_patterns` (lines 88-95). -/
def info_patterns : List Pat :=
  [ ["INFO:"]
  , ["Info:"]
  , ["Loading"]
  , ["Initializing"]
  , ["Starting"]
  , ["Stopping"] ]

/-- The five criticality strings `analyze_log_line` can return. -/
inductive Severity where
  | critical
  | error
  | warning
  | info
  | debug
deriving DecidableEq, Repr

/-- First pattern of the list matching the line (`for pattern in …: if
re.search(pattern, line, re.IGNORECASE): return …`). -/
def findMatch (pats : List Pat) (line : List Char) : Option Pat :=
  pats.find? fun p => re_search p line

/-- `KernelLogAnalyzer.analyze_log_line` (lines 97-121): strip the line,
try the four pattern lists from most to least severe, return the first
matching severity together with the pattern that matched, and `debug`
(with no pattern) when nothing matched. -/
def analyze_log_line (line : List Char) : Severity × Option Pat :=
  let l := stripLine line
  match findMatch critical_patterns l with
  | some p => (Severity.critical, some p)
  | none =>
    match findMatch error_patterns l with
    | some p => (Severity.error, some p)
    | none =>
      match findMatch warning_patterns l with
      | some p => (Severity.warning, some p)
      | none =>
        match findMatch info_patterns l with
        | some p => (Severity.info, some p)
        | none => (Severity.debug, none)

/-! ## Helper lemmas: one tick of `WatchdogMonitor.check_and_trigger` -/

lemma check_tail_fields (m : WatchdogMonitor) (t : ℚ) :
    (m.check_tail t).2 = none ∧
    (m.check_tail t).1.cpu_threshold = m.cpu_threshold ∧
    (m.check_tail t).1.ram_threshold = m.ram_threshold ∧
    (m.check_tail t).1.duration_threshold = m.duration_threshold ∧
    (m.check_tail t).1.cpu_high_start = m.cpu_high_start ∧
    (m.check_tail t).1.ram_high_start = m.ram_high_start := by
  unfold WatchdogMonitor.check_tail WatchdogMonitor.log_status
  split <;> simp

lemma check_cpu_low {m : WatchdogMonitor} {cpu : ℚ} (ram t : ℚ)
    (hc : cpu ≤ m.cpu_threshold) :
    m.check_and_trigger cpu ram t =
      WatchdogMonitor.check_ram { m with cpu_high_start := none } ram t := by
  simp [WatchdogMonitor.check_and_trigger, not_lt.mpr hc]

lemma check_cpu_over_start {m : WatchdogMonitor} {cpu : ℚ} (ram t : ℚ)
    (hc : m.cpu_threshold < cpu) (h0 : m.cpu_high_start = none) :
    m.check_and_trigger cpu ram t =
      WatchdogMonitor.check_ram { m with cpu_high_start := some t } ram t := by
  simp [WatchdogMonitor.check_and_trigger, h0, hc]

lemma check_cpu_over_hold {m : WatchdogMonitor} {cpu s : ℚ} (ram t : ℚ)
    (hc : m.cpu_threshold < cpu) (hs : m.cpu_high_start = some s)
    (hlt : t - s < m.duration_threshold) :
    m.check_and_trigger cpu ram t = m.check_ram ram t := by
  simp [WatchdogMonitor.check_and_trigger, hs, hc, not_le.mpr hlt]

lemma check_cpu_fire {m : WatchdogMonitor} {cpu s : ℚ} (ram t : ℚ)
    (hc : m.cpu_threshold < cpu) (hs : m.cpu_high_start = some s)
    (hge : t - s ≥ m.duration_threshold) :
    m.check_and_trigger cpu ram t = (m, some RebootReason.cpu) := by
  simp [WatchdogMonitor.check_and_trigger, hs, hc, hge]

lemma check_ram_low {m : WatchdogMonitor} {ram : ℚ} (t : ℚ)
    (hr : ram ≤ m.ram_threshold) :
    m.check_ram ram t = WatchdogMonitor.check_tail { m with ram_high_start := none } t := by
  simp [WatchdogMonitor.check_ram, not_lt.mpr hr]

lemma check_ram_over_start {m : WatchdogMonitor} {ram : ℚ} (t : ℚ)
    (hr : m.ram_threshold < ram) (h0 : m.ram_high_start = none) :
    m.check_ram ram t = WatchdogMonitor.check_tail { m with ram_high_start := some t } t := by
  simp [WatchdogMonitor.check_ram, h0, hr]

lemma check_ram_over_hold {m : WatchdogMonitor} {ram s : ℚ} (t : ℚ)
    (hr : m.ram_threshold < ram) (hs : m.ram_high_start = some s)
    (hlt : t - s < m.duration_threshold) :
    m.check_ram ram t = m.check_tail t := by
  simp [WatchdogMonitor.check_ram, hs, hr, not_le.mpr hlt]

lemma check_ram_fire {m : WatchdogMonitor} {ram s : ℚ} (t : ℚ)
    (hr : m.ram_threshold < ram) (hs : m.ram_high_start = some s)
    (hge : t - s ≥ m.duration_threshold) :
    m.check_ram ram t = (m, some RebootReason.ram) := by
  simp [WatchdogMonitor.check_ram, hs, hr, hge]

/-- A tick with both metrics at or below threshold completes without
firing and clears both timers. -/
lemma check_both_low {m : WatchdogMonitor} {cpu ram : ℚ} (t : ℚ)
    (hc : cpu ≤ m.cpu_threshold) (hr : ram ≤ m.ram_threshold) :
    (m.check_and_trigger cpu ram t).2 = none ∧
    (m.check_and_trigger cpu ram t).1.cpu_threshold = m.cpu_threshold ∧
    (m.check_and_trigger cpu ram t).1.ram_threshold = m.ram_threshold ∧
    (m.check_and_trigger cpu ram t).1.duration_threshold = m.duration_threshold ∧
    (m.check_and_trigger cpu ram t).1.cpu_high_start = none ∧
    (m.check_and_trigger cpu ram t).1.ram_high_start = none := by
  rw [check_cpu_low ram t hc,
    check_ram_low (m := { m with cpu_high_start := none }) t hr]
  have h := check_tail_fields
    { m with cpu_high_start := none, ram_high_start := none } t
  simpa using h

/-- Unfolding `run` on a tick that completes without firing. -/
lemma run_cons_none {m : WatchdogMonitor} {p : ℚ × ℚ} {t : ℕ} (rest : List (ℚ × ℚ))
    (h : (m.check_and_trigger p.1 p.2 (t : ℚ)).2 = none) :
    m.run t (p :: rest) = (m.check_and_trigger p.1 p.2 (t : ℚ)).1.run (t + 1) rest := by
  rcases hE : m.check_and_trigger p.1 p.2 (t : ℚ) with ⟨m', a⟩
  rw [hE] at h
  simp at h
  subst h
  rw [WatchdogMonitor.run, hE]

/-- Unfolding `run` on a tick that triggers the reboot: the loop ends. -/
lemma run_cons_some {m : WatchdogMonitor} {p : ℚ × ℚ} {t : ℕ} {r : RebootReason}
    (rest : List (ℚ × ℚ))
    (h : (m.check_and_trigger p.1 p.2 (t : ℚ)).2 = some r) :
    m.run t (p :: rest) = ((m.check_and_trigger p.1 p.2 (t : ℚ)).1, some (t, r)) := by
  rcases hE : m.check_and_trigger p.1 p.2 (t : ℚ) with ⟨m', a⟩
  rw [hE] at h
  simp at h
  subst h
  rw [WatchdogMonitor.run, hE]

/-- Core debounce induction, CPU side: once `cpu_high_start = some 0` is
set (the excursion began at tick 0) and the CPU stays strictly above the
threshold while the RAM stays at or below its own, the reboot fires at
tick `d` exactly — the first tick whose elapsed time `t - 0` reaches the
duration threshold — and the loop ends there. -/
lemma run_fires_cpu (ct rt : ℚ) (d : ℕ) :
    ∀ (samples : List (ℚ × ℚ)) (t : ℕ) (m : WatchdogMonitor),
    m.cpu_threshold = ct → m.ram_threshold = rt → m.duration_threshold = (d : ℚ) →
    m.cpu_high_start = some 0 →
    1 ≤ t → t ≤ d → d - t < samples.length →
    (∀ j (hj : j < samples.length), t + j ≤ d →
        ct < (samples.get ⟨j, hj⟩).1 ∧ (samples.get ⟨j, hj⟩).2 ≤ rt) →
    (m.run t samples).2 = some (d, RebootReason.cpu) := by
  intro samples
  induction samples with
  | nil =>
    intro t m _ _ _ _ _ _ hlen _
    simp at hlen
  | cons p rest ih =>
    intro t m hct hrt hd h0 ht1 htd hlen hover
    have hc : ct < p.1 := (hover 0 (by simp) (by omega)).1
    have hr : p.2 ≤ rt := (hover 0 (by simp) (by omega)).2
    have hc' : m.cpu_threshold < p.1 := by rw [hct]; exact hc
    by_cases hfin : t = d
    · subst hfin
      have hge : (t : ℚ) - 0 ≥ m.duration_threshold := by rw [hd, sub_zero]
      have hfire := check_cpu_fire p.2 (t : ℚ) hc' h0 hge
      have h2 : (m.check_and_trigger p.1 p.2 (t : ℚ)).2 = some RebootReason.cpu := by
        rw [hfire]
      rw [run_cons_some rest h2]
    · have htlt : t < d := lt_of_le_of_ne htd hfin
      have hlt : (t : ℚ) - 0 < m.duration_threshold := by
        rw [hd, sub_zero]
        exact_mod_cast htlt
      have hstep := check_cpu_over_hold p.2 (t : ℚ) hc' h0 hlt
      have hr' : p.2 ≤ m.ram_threshold := by rw [hrt]; exact hr
      have hram := check_ram_low (m := m) (t := (t : ℚ)) hr'
      have htail := check_tail_fields { m with ram_high_start := none } (t : ℚ)
      have h2 : (m.check_and_trigger p.1 p.2 (t : ℚ)).2 = none := by
        rw [hstep, hram]
        exact htail.1
      rw [run_cons_none rest h2, hstep, hram]
      refine ih (t + 1) _ ?_ ?_ ?_ ?_ (by omega) (by omega) (by simp at hlen ⊢; omega) ?_
      · rw [htail.2.1]; exact hct
      · rw [htail.2.2.1]; exact hrt
      · rw [htail.2.2.2.1]; exact hd
      · rw [htail.2.2.2.2.1]; exact h0
      · intro j hj hle
        have := hover (j + 1) (by simpa using Nat.succ_lt_succ hj) (by omega)
        simpa using this

/-- Core debounce induction, RAM side: with the CPU staying at or below
its threshold (so its branch never returns early) and the RAM strictly
above, the reboot fires at tick `d` exactly. -/
lemma run_fires_ram (ct rt : ℚ) (d : ℕ) :
    ∀ (samples : List (ℚ × ℚ)) (t : ℕ) (m : WatchdogMonitor),
    m.cpu_threshold = ct → m.ram_threshold = rt → m.duration_threshold = (d : ℚ) →
    m.ram_high_start = some 0 →
    1 ≤ t → t ≤ d → d - t < samples.length →
    (∀ j (hj : j < samples.length), t + j ≤ d →
        (samples.get ⟨j, hj⟩).1 ≤ ct ∧ rt < (samples.get ⟨j, hj⟩).2) →
    (m.run t samples).2 = some (d, RebootReason.ram) := by
  intro samples
  induction samples with
  | nil =>
    intro t m _ _ _ _ _ _ hlen _
    simp at hlen
  | cons p rest ih =>
    intro t m hct hrt hd h0 ht1 htd hlen hover
    have hc : p.1 ≤ ct := (hover 0 (by simp) (by omega)).1
    have hr : rt < p.2 := (hover 0 (by simp) (by omega)).2
    have hc2 : p.1 ≤ m.cpu_threshold := by rw [hct]; exact hc
    have hcpu := check_cpu_low (m := m) p.2 (t : ℚ) hc2
    have hr' : WatchdogMonitor.ram_threshold { m with cpu_high_start := none } < p.2 := by
      rw [show WatchdogMonitor.ram_threshold { m with cpu_high_start := none } =
        m.ram_threshold from rfl, hrt]
      exact hr
    by_cases hfin : t = d
    · subst hfin
      have hge : (t : ℚ) - 0 ≥
          WatchdogMonitor.duration_threshold { m with cpu_high_start := none } := by
        rw [show WatchdogMonitor.duration_threshold { m with cpu_high_start := none } =
          m.duration_threshold from rfl, hd, sub_zero]
      have hfire := check_ram_fire (m := { m with cpu_high_start := none }) (t : ℚ) hr' h0 hge
      have h2 : (m.check_and_trigger p.1 p.2 (t : ℚ)).2 = some RebootReason.ram := by
        rw [hcpu, hfire]
      rw [run_cons_some rest h2]
    · have htlt : t < d := lt_of_le_of_ne htd hfin
      have hlt : (t : ℚ) - 0 <
          WatchdogMonitor.duration_threshold { m with cpu_high_start := none } := by
        rw [show WatchdogMonitor.duration_threshold { m with cpu_high_start := none } =
          m.duration_threshold from rfl, hd, sub_zero]
        exact_mod_cast htlt
      have hstep := check_ram_over_hold (m := { m with cpu_high_start := none }) (t : ℚ)
        hr' h0 hlt
      have htail := check_tail_fields { m with cpu_high_start := none } (t : ℚ)
      have h2 : (m.check_and_trigger p.1 p.2 (t : ℚ)).2 = none := by
        rw [hcpu, hstep]
        exact htail.1
      rw [run_cons_none rest h2, hcpu, hstep]
      refine ih (t + 1) _ ?_ ?_ ?_ ?_ (by omega) (by omega) (by simp at hlen ⊢; omega) ?_
      · rw [htail.2.1]; exact hct
      · rw [htail.2.2.1]; exact hrt
      · rw [htail.2.2.2.1]; exact hd
      · rw [htail.2.2.2.2.2]; exact h0
      · intro j hj hle
        have := hover (j + 1) (by simpa using Nat.succ_lt_succ hj) (by omega)
        simpa using this

/-- Entry form of the CPU debounce induction, started from a freshly
constructed monitor at tick 0. -/
lemma init_run_fires_cpu (ct rt : ℚ) (d : ℕ) (samples : List (ℚ × ℚ))
    (hd1 : 1 ≤ d) (hlen : d < samples.length)
    (hover : ∀ j (hj : j < samples.length), j ≤ d →
        ct < (samples.get ⟨j, hj⟩).1 ∧ (samples.get ⟨j, hj⟩).2 ≤ rt) :
    ((WatchdogMonitor.init ct rt (d : ℚ)).run 0 samples).2 = some (d, RebootReason.cpu) := by
  rcases samples with _ | ⟨p, rest⟩
  · simp at hlen
  · have hc : ct < p.1 := (hover 0 (by simp) (by omega)).1
    have hr : p.2 ≤ rt := (hover 0 (by simp) (by omega)).2
    have hc2 : (WatchdogMonitor.init ct rt (d : ℚ)).cpu_threshold < p.1 := hc
    have hstart := check_cpu_over_start (m := WatchdogMonitor.init ct rt (d : ℚ))
      p.2 ((0 : ℕ) : ℚ) hc2 rfl
    have hr2 : p.2 ≤ WatchdogMonitor.ram_threshold
        { WatchdogMonitor.init ct rt (d : ℚ) with cpu_high_start := some ((0 : ℕ) : ℚ) } := hr
    have hram := check_ram_low
      (m := { WatchdogMonitor.init ct rt (d : ℚ) with cpu_high_start := some ((0 : ℕ) : ℚ) })
      (t := ((0 : ℕ) : ℚ)) hr2
    have htail := check_tail_fields
      { WatchdogMonitor.init ct rt (d : ℚ) with
        cpu_high_start := some ((0 : ℕ) : ℚ), ram_high_start := none } ((0 : ℕ) : ℚ)
    have h2 : ((WatchdogMonitor.init ct rt (d : ℚ)).check_and_trigger p.1 p.2
        ((0 : ℕ) : ℚ)).2 = none := by
      rw [hstart, hram]
      exact htail.1
    rw [run_cons_none rest h2, hstart, hram]
    refine run_fires_cpu ct rt d rest 1 _ ?_ ?_ ?_ ?_ (by omega) (by omega)
      (by simp at hlen ⊢; omega) ?_
    · rw [htail.2.1]; exact rfl
    · rw [htail.2.2.1]; exact rfl
    · rw [htail.2.2.2.1]; exact rfl
    · rw [htail.2.2.2.2.1]
      norm_num [WatchdogMonitor.init]
    · intro j hj hle
      have := hover (j + 1) (by simpa using Nat.succ_lt_succ hj) (by omega)
      simpa using this

/-- Entry form of the RAM debounce induction, started from a freshly
constructed monitor at tick 0. -/
lemma init_run_fires_ram (ct rt : ℚ) (d : ℕ) (samples : List (ℚ × ℚ))
    (hd1 : 1 ≤ d) (hlen : d < samples.length)
    (hover : ∀ j (hj : j < samples.length), j ≤ d →
        (samples.get ⟨j, hj⟩).1 ≤ ct ∧ rt < (samples.get ⟨j, hj⟩).2) :
    ((WatchdogMonitor.init ct rt (d : ℚ)).run 0 samples).2 = some (d, RebootReason.ram) := by
  rcases samples with _ | ⟨p, rest⟩
  · simp at hlen
  · have hc : p.1 ≤ ct := (hover 0 (by simp) (by omega)).1
    have hr : rt < p.2 := (hover 0 (by simp) (by omega)).2
    have hc2 : p.1 ≤ (WatchdogMonitor.init ct rt (d : ℚ)).cpu_threshold := hc
    have hcpu := check_cpu_low (m := WatchdogMonitor.init ct rt (d : ℚ))
      p.2 ((0 : ℕ) : ℚ) hc2
    have hr2 : WatchdogMonitor.ram_threshold
        { WatchdogMonitor.init ct rt (d : ℚ) with cpu_high_start := none } < p.2 := hr
    have hram := check_ram_over_start
      (m := { WatchdogMonitor.init ct rt (d : ℚ) with cpu_high_start := none })
      (t := ((0 : ℕ) : ℚ)) hr2 rfl
    have htail := check_tail_fields
      { WatchdogMonitor.init ct rt (d : ℚ) with
        cpu_high_start := none, ram_high_start := some ((0 : ℕ) : ℚ) } ((0 : ℕ) : ℚ)
    have h2 : ((WatchdogMonitor.init ct rt (d : ℚ)).check_and_trigger p.1 p.2
        ((0 : ℕ) : ℚ)).2 = none := by
      rw [hcpu, hram]
      exact htail.1
    rw [run_cons_none rest h2, hcpu, hram]
    refine run_fires_ram ct rt d rest 1 _ ?_ ?_ ?_ ?_ (by omega) (by omega)
      (by simp at hlen ⊢; omega) ?_
    · rw [htail.2.1]; exact rfl
    · rw [htail.2.2.1]; exact rfl
    · rw [htail.2.2.2.1]; exact rfl
    · rw [htail.2.2.2.2.2]
      norm_num [WatchdogMonitor.init]
    · intro j hj hle
      have := hover (j + 1) (by simpa using Nat.succ_lt_succ hj) (by omega)
      simpa using this

/-- Auxiliary induction for the claim "all samples at or below the
thresholds, so the reboot never fires". -/
lemma run_low : ∀ (samples : List (ℚ × ℚ)) (t : ℕ) (m : WatchdogMonitor),
    (∀ p ∈ samples, p.1 ≤ m.cpu_threshold ∧ p.2 ≤ m.ram_threshold) →
    (m.run t samples).2 = none := by
  intro samples
  induction samples with
  | nil => intro t m _; simp [WatchdogMonitor.run]
  | cons p rest ih =>
    intro t m h
    obtain ⟨hc, hr⟩ := h p (List.mem_cons_self p rest)
    obtain ⟨h2, hct, hrt, -, -, -⟩ := check_both_low (m := m) (t := (t : ℚ)) hc hr
    rw [run_cons_none rest h2]
    exact ih (t + 1) _ fun q hq => by
      rw [hct, hrt]
      exact h q (List.mem_cons_of_mem p hq)

/-- The RAM block (and what follows it) never reports the CPU reason. -/
lemma check_ram_not_cpu (m : WatchdogMonitor) (ram t : ℚ) :
    (m.check_ram ram t).2 ≠ some RebootReason.cpu := by
  unfold WatchdogMonitor.check_ram WatchdogMonitor.check_tail WatchdogMonitor.log_status
  repeat' split
  all_goals simp

/-- The RAM block never touches `cpu_high_start`. -/
lemma check_ram_cpu_fields (m : WatchdogMonitor) (ram t : ℚ) :
    (m.check_ram ram t).1.cpu_high_start = m.cpu_high_start := by
  unfold WatchdogMonitor.check_ram WatchdogMonitor.check_tail WatchdogMonitor.log_status
  repeat' split
  all_goals simp

/-- After a non-firing pass through the RAM block, `ram_high_start` is
`none` exactly when the sample was at or below the threshold, and
`cpu_high_start` is untouched. -/
lemma check_ram_invariant (m : WatchdogMonitor) (ram t : ℚ)
    (h : (m.check_ram ram t).2 = none) :
    ((m.check_ram ram t).1.ram_high_start = none ↔ ram ≤ m.ram_threshold) := by
  by_cases h1 : m.ram_threshold < ram
  · cases h0 : m.ram_high_start with
    | none =>
      rw [check_ram_over_start t h1 h0]
      have ht := check_tail_fields { m with ram_high_start := some t } t
      rw [ht.2.2.2.2.2]
      simpa using not_le.mpr h1
    | some s =>
      by_cases h2 : t - s ≥ m.duration_threshold
      · rw [check_ram_fire t h1 h0 h2] at h
        simp at h
      · rw [check_ram_over_hold t h1 h0 (not_le.mp h2)]
        have ht := check_tail_fields m t
        rw [ht.2.2.2.2.2, h0]
        simpa using not_le.mpr h1
  · rw [check_ram_low t (not_lt.mp h1)]
    have ht := check_tail_fields { m with ram_high_start := none } t
    rw [ht.2.2.2.2.2]
    simpa using not_lt.mp h1

/-! ## Helper lemmas: enhanced monitor -/

/-- Everything after the enhanced CPU block never reports the CPU reboot. -/
lemma echeck_ram_not_cpu (m : EnhancedWatchdogMonitor) (ram : ℚ) (wifi : Bool) (t : ℚ) :
    (m.check_ram ram wifi t).2 ≠ some EnhancedAction.rebootCPU := by
  unfold EnhancedWatchdogMonitor.check_ram EnhancedWatchdogMonitor.check_wifi
    EnhancedWatchdogMonitor.check_tail EnhancedWatchdogMonitor.log_status
  repeat' split
  all_goals simp

lemma echeck_cpu_low {m : EnhancedWatchdogMonitor} {cpu : ℚ} (ram : ℚ) (probe : WifiProbe)
    (t : ℚ) (hc : cpu ≤ m.cpu_threshold) :
    m.check_and_trigger cpu ram probe t =
      EnhancedWatchdogMonitor.check_ram { m with cpu_high_start := none } ram
        (check_wifi_connectivity probe) t := by
  simp [EnhancedWatchdogMonitor.check_and_trigger, not_lt.mpr hc]

lemma echeck_cpu_over_start {m : EnhancedWatchdogMonitor} {cpu : ℚ} (ram : ℚ)
    (probe : WifiProbe) (t : ℚ) (hc : m.cpu_threshold < cpu) (h0 : m.cpu_high_start = none) :
    m.check_and_trigger cpu ram probe t =
      EnhancedWatchdogMonitor.check_ram { m with cpu_high_start := some t } ram
        (check_wifi_connectivity probe) t := by
  simp [EnhancedWatchdogMonitor.check_and_trigger, h0, hc]

lemma echeck_cpu_over_hold {m : EnhancedWatchdogMonitor} {cpu s : ℚ} (ram : ℚ)
    (probe : WifiProbe) (t : ℚ) (hc : m.cpu_threshold < cpu) (hs : m.cpu_high_start = some s)
    (hlt : t - s < m.duration_threshold) :
    m.check_and_trigger cpu ram probe t =
      m.check_ram ram (check_wifi_connectivity probe) t := by
  simp [EnhancedWatchdogMonitor.check_and_trigger, hs, hc, not_le.mpr hlt]

lemma echeck_cpu_fire {m : EnhancedWatchdogMonitor} {cpu s : ℚ} (ram : ℚ)
    (probe : WifiProbe) (t : ℚ) (hc : m.cpu_threshold < cpu) (hs : m.cpu_high_start = some s)
    (hge : t - s ≥ m.duration_threshold) :
    m.check_and_trigger cpu ram probe t = (m, some EnhancedAction.rebootCPU) := by
  simp [EnhancedWatchdogMonitor.check_and_trigger, hs, hc, hge]

/-- A CPU-triggered reboot returns before any later block runs: the state
is exactly the pre-tick state (basic monitor). -/
lemma check_cpu_fire_frame (m : WatchdogMonitor) (cpu ram t : ℚ)
    (h : (m.check_and_trigger cpu ram t).2 = some RebootReason.cpu) :
    (m.check_and_trigger cpu ram t).1 = m := by
  by_cases h1 : m.cpu_threshold < cpu
  · cases h0 : m.cpu_high_start with
    | none =>
      rw [check_cpu_over_start ram t h1 h0] at h
      exact absurd h (check_ram_not_cpu _ _ _)
    | some s =>
      by_cases h2 : t - s ≥ m.duration_threshold
      · rw [check_cpu_fire ram t h1 h0 h2]
      · rw [check_cpu_over_hold ram t h1 h0 (not_le.mp h2)] at h
        exact absurd h (check_ram_not_cpu _ _ _)
  · rw [check_cpu_low ram t (not_lt.mp h1)] at h
    exact absurd h (check_ram_not_cpu _ _ _)

/-- A CPU-triggered reboot returns before any later block runs: the state
is exactly the pre-tick state (enhanced monitor). -/
lemma echeck_cpu_fire_frame (m : EnhancedWatchdogMonitor) (cpu ram : ℚ) (probe : WifiProbe)
    (t : ℚ) (h : (m.check_and_trigger cpu ram probe t).2 = some EnhancedAction.rebootCPU) :
    (m.check_and_trigger cpu ram probe t).1 = m := by
  by_cases h1 : m.cpu_threshold < cpu
  · cases h0 : m.cpu_high_start with
    | none =>
      rw [echeck_cpu_over_start ram probe t h1 h0] at h
      exact absurd h (echeck_ram_not_cpu _ _ _ _)
    | some s =>
      by_cases h2 : t - s ≥ m.duration_threshold
      · rw [echeck_cpu_fire ram probe t h1 h0 h2]
      · rw [echeck_cpu_over_hold ram probe t h1 h0 (not_le.mp h2)] at h
        exact absurd h (echeck_ram_not_cpu _ _ _ _)
  · rw [echeck_cpu_low ram probe t (not_lt.mp h1)] at h
    exact absurd h (echeck_ram_not_cpu _ _ _ _)

/-! ## Helper lemmas: throttled status logging -/

lemma logRun_cons_emit {m : WatchdogMonitor} {t : ℚ} (ts : List ℚ)
    (h : t - m.last_log_time ≥ 5) :
    m.logRun (t :: ts) = t :: WatchdogMonitor.logRun { m with last_log_time := t } ts := by
  simp [WatchdogMonitor.logRun, WatchdogMonitor.log_status, h]

lemma logRun_cons_skip {m : WatchdogMonitor} {t : ℚ} (ts : List ℚ)
    (h : ¬ t - m.last_log_time ≥ 5) :
    m.logRun (t :: ts) = m.logRun ts := by
  simp [WatchdogMonitor.logRun, WatchdogMonitor.log_status, h]

/-- Strengthened throttling invariant: prepending the recorded
`last_log_time` to the emitted instants still leaves consecutive entries
at least five seconds apart. -/
lemma logRun_chain : ∀ (ts : List ℚ) (m : WatchdogMonitor),
    List.Chain' (fun a b => 5 ≤ b - a) (m.last_log_time :: m.logRun ts) := by
  intro ts
  induction ts with
  | nil => intro m; simp [WatchdogMonitor.logRun]
  | cons t ts ih =>
    intro m
    by_cases h : t - m.last_log_time ≥ 5
    · rw [logRun_cons_emit ts h]
      refine List.chain'_cons.mpr ⟨h, ?_⟩
      simpa using ih { m with last_log_time := t }
    · rw [logRun_cons_skip ts h]
      exact ih m

/-! ## Claim theorems -/

/-- C1 (amended): for the reboot actions of `check_and_trigger`, a metric
strictly above its threshold continuously from tick 0 through tick `d`
(the sustained duration, at least one poll interval) makes the reboot
fire exactly once, at tick `d` — the first tick whose elapsed time since
the excursion began reaches the duration threshold — after which the
process reboots and the loop ends (first two conjuncts, CPU and RAM; the
third is the concrete `[85]*20` scenario).  The enhanced monitor's WiFi
restart action also fires first at the first tick whose elapsed down-time
reaches `wifi_timeout`, but it resets `wifi_down_start` after firing and
fires again within the same unbroken excursion (fourth conjunct:
timeout 3, eight continuously-down ticks, restarts at ticks 3 and 7). -/
theorem debounced_action_fires_at_first_elapsed_tick :
    (∀ (ct rt : ℚ) (d : ℕ) (samples : List (ℚ × ℚ)), 1 ≤ d → d < samples.length →
      (∀ j (hj : j < samples.length), j ≤ d →
          ct < (samples.get ⟨j, hj⟩).1 ∧ (samples.get ⟨j, hj⟩).2 ≤ rt) →
      ((WatchdogMonitor.init ct rt (d : ℚ)).run 0 samples).2 = some (d, RebootReason.cpu)) ∧
    (∀ (ct rt : ℚ) (d : ℕ) (samples : List (ℚ × ℚ)), 1 ≤ d → d < samples.length →
      (∀ j (hj : j < samples.length), j ≤ d →
          (samples.get ⟨j, hj⟩).1 ≤ ct ∧ rt < (samples.get ⟨j, hj⟩).2) →
      ((WatchdogMonitor.init ct rt (d : ℚ)).run 0 samples).2 = some (d, RebootReason.ram)) ∧
    (((WatchdogMonitor.init 80 80 15).run 0 (List.replicate 20 ((85 : ℚ), (10 : ℚ)))).2 =
      some (15, RebootReason.cpu)) ∧
    (((EnhancedWatchdogMonitor.init 80 80 15 3).run 0
        (List.replicate 8 ((10 : ℚ), (10 : ℚ), WifiProbe.ok false))).2 =
      [(3, EnhancedAction.wifiRestart), (7, EnhancedAction.wifiRestart)]) := by
  refine ⟨init_run_fires_cpu, init_run_fires_ram, ?_, ?_⟩
  · norm_num [WatchdogMonitor.run, WatchdogMonitor.init, WatchdogMonitor.check_and_trigger,
      WatchdogMonitor.check_ram, WatchdogMonitor.check_tail, WatchdogMonitor.log_status,
      List.replicate]
  · norm_num [EnhancedWatchdogMonitor.run, EnhancedWatchdogMonitor.init,
      EnhancedWatchdogMonitor.check_and_trigger, EnhancedWatchdogMonitor.check_ram,
      EnhancedWatchdogMonitor.check_wifi, EnhancedWatchdogMonitor.check_tail,
      EnhancedWatchdogMonitor.log_status, check_wifi_connectivity, List.replicate]

/-- C1 (counterexample): with `wifi_timeout = 2` and the WiFi probe
reporting "down" on all six ticks — a single unbroken excursion — the
WiFi restart action is emitted twice (ticks 2 and 5), because line 198
resets `wifi_down_start` after firing instead of latching an
action-fired flag.  This refutes "never emitted a second time within the
same unbroken excursion (this includes the enhanced monitor's WiFi
restart action)". -/
theorem wifi_restart_fires_twice_in_one_excursion :
    ((EnhancedWatchdogMonitor.init 80 80 15 2).run 0
        (List.replicate 6 ((10 : ℚ), (10 : ℚ), WifiProbe.ok false))).2 =
      [(2, EnhancedAction.wifiRestart), (5, EnhancedAction.wifiRestart)] := by
  norm_num [EnhancedWatchdogMonitor.run, EnhancedWatchdogMonitor.init,
    EnhancedWatchdogMonitor.check_and_trigger, EnhancedWatchdogMonitor.check_ram,
    EnhancedWatchdogMonitor.check_wifi, EnhancedWatchdogMonitor.check_tail,
    EnhancedWatchdogMonitor.log_status, check_wifi_connectivity, List.replicate]

/-- C2: if every sample of the stream keeps both metrics at or below
their thresholds, `trigger_reboot` is never invoked, however long the
stream. -/
theorem below_threshold_never_triggers_reboot (ct rt dt : ℚ) (samples : List (ℚ × ℚ))
    (h : ∀ p ∈ samples, p.1 ≤ ct ∧ p.2 ≤ rt) :
    ((WatchdogMonitor.init ct rt dt).run 0 samples).2 = none :=
  run_low samples 0 _ h

/-- C2 (witness): a concrete quiet stream — including a boundary sample
exactly at the thresholds — never reboots. -/
theorem below_threshold_never_triggers_reboot_witness :
    ((WatchdogMonitor.init 80 80 15).run 0
      [((10 : ℚ), (10 : ℚ)), ((80 : ℚ), (80 : ℚ)), ((79 : ℚ), (0 : ℚ))]).2 = none :=
  below_threshold_never_triggers_reboot 80 80 15 _ (by decide)

/-- C3: after a `check_and_trigger` pass that completes without firing,
`cpu_high_start` is `None` iff the CPU sample of that pass was at or
below `cpu_threshold`, and likewise for `ram_high_start` and the RAM
sample. -/
theorem timer_none_iff_last_sample_below (m : WatchdogMonitor) (cpu ram t : ℚ)
    (h : (m.check_and_trigger cpu ram t).2 = none) :
    ((m.check_and_trigger cpu ram t).1.cpu_high_start = none ↔ cpu ≤ m.cpu_threshold) ∧
    ((m.check_and_trigger cpu ram t).1.ram_high_start = none ↔ ram ≤ m.ram_threshold) := by
  by_cases h1 : m.cpu_threshold < cpu
  · cases h0 : m.cpu_high_start with
    | none =>
      rw [check_cpu_over_start ram t h1 h0] at h ⊢
      refine ⟨?_, check_ram_invariant _ _ _ h⟩
      rw [check_ram_cpu_fields]
      simpa using not_le.mpr h1
    | some s =>
      by_cases h2 : t - s ≥ m.duration_threshold
      · rw [check_cpu_fire ram t h1 h0 h2] at h
        simp at h
      · rw [check_cpu_over_hold ram t h1 h0 (not_le.mp h2)] at h ⊢
        refine ⟨?_, check_ram_invariant _ _ _ h⟩
        rw [check_ram_cpu_fields, h0]
        simpa using not_le.mpr h1
  · rw [check_cpu_low ram t (not_lt.mp h1)] at h ⊢
    refine ⟨?_, check_ram_invariant _ _ _ h⟩
    rw [check_ram_cpu_fields]
    simpa using not_lt.mp h1

/-- C3 (witness): a pass with CPU quiet and RAM over threshold completes
without firing; afterwards `cpu_high_start` is `None` and
`ram_high_start` is not. -/
theorem timer_none_iff_last_sample_below_witness :
    (((WatchdogMonitor.init 80 80 15).check_and_trigger 10 90 0).1.cpu_high_start = none ↔
      (10 : ℚ) ≤ (WatchdogMonitor.init 80 80 15).cpu_threshold) ∧
    (((WatchdogMonitor.init 80 80 15).check_and_trigger 10 90 0).1.ram_high_start = none ↔
      (90 : ℚ) ≤ (WatchdogMonitor.init 80 80 15).ram_threshold) :=
  timer_none_iff_last_sample_below (WatchdogMonitor.init 80 80 15) 10 90 0
    (by norm_num [WatchdogMonitor.init, WatchdogMonitor.check_and_trigger,
      WatchdogMonitor.check_ram, WatchdogMonitor.check_tail, WatchdogMonitor.log_status])

/-- Reaching the RAM block with a sample at or below the threshold fires
nothing for RAM and clears its timer. -/
lemma check_ram_at_threshold (M : WatchdogMonitor) (ram t : ℚ) (hr : ram ≤ M.ram_threshold) :
    (M.check_ram ram t).2 ≠ some RebootReason.ram ∧
    (M.check_ram ram t).1.ram_high_start = none := by
  rw [check_ram_low t hr]
  have ht := check_tail_fields { M with ram_high_start := none } t
  constructor
  · rw [ht.1]
    simp
  · rw [ht.2.2.2.2.2]

/-- C4 (amended): a sample exactly equal to the threshold never counts as
exceeding it.  A CPU sample equal to `cpu_threshold` leaves
`cpu_high_start` cleared and can never be the reason for a CPU reboot; a
RAM sample equal to `ram_threshold` can never be the reason for a RAM
reboot, and whenever the pass completes without firing (i.e. the RAM
block was actually reached, no earlier `return` was taken)
`ram_high_start` ends cleared.  The only exception to the clearing — a
tick on which the CPU branch reboots first — is the counterexample's
subject. -/
theorem equality_counts_as_not_exceeded :
    (∀ (m : WatchdogMonitor) (ram t : ℚ),
      (m.check_and_trigger m.cpu_threshold ram t).1.cpu_high_start = none ∧
      (m.check_and_trigger m.cpu_threshold ram t).2 ≠ some RebootReason.cpu) ∧
    (∀ (m : WatchdogMonitor) (cpu t : ℚ),
      (m.check_and_trigger cpu m.ram_threshold t).2 ≠ some RebootReason.ram ∧
      ((m.check_and_trigger cpu m.ram_threshold t).2 = none →
        (m.check_and_trigger cpu m.ram_threshold t).1.ram_high_start = none)) := by
  constructor
  · intro m ram t
    rw [check_cpu_low ram t le_rfl]
    constructor
    · rw [check_ram_cpu_fields]
    · exact check_ram_not_cpu _ _ _
  · intro m cpu t
    by_cases h1 : m.cpu_threshold < cpu
    · cases h0 : m.cpu_high_start with
      | none =>
        rw [check_cpu_over_start m.ram_threshold t h1 h0]
        have hh := check_ram_at_threshold { m with cpu_high_start := some t }
          m.ram_threshold t le_rfl
        exact ⟨hh.1, fun _ => hh.2⟩
      | some s =>
        by_cases h2 : t - s ≥ m.duration_threshold
        · rw [check_cpu_fire m.ram_threshold t h1 h0 h2]
          exact ⟨by simp, fun hx => absurd hx (by simp)⟩
        · rw [check_cpu_over_hold m.ram_threshold t h1 h0 (not_le.mp h2)]
          have hh := check_ram_at_threshold m m.ram_threshold t le_rfl
          exact ⟨hh.1, fun _ => hh.2⟩
    · rw [check_cpu_low m.ram_threshold t (not_lt.mp h1)]
      have hh := check_ram_at_threshold { m with cpu_high_start := none }
        m.ram_threshold t le_rfl
      exact ⟨hh.1, fun _ => hh.2⟩

/-- C4 (counterexample): with `duration_threshold = 1`, tick 0 starts both
timers at `(85, 85)`; on tick 1 the sample is `(85, 80)` — the RAM value
is exactly equal to the threshold — yet the CPU branch reboots and
returns early, so the running RAM timer is NOT cleared (it is still
`some 0` after the tick).  This refutes "it clears any running excursion
timer" as a universal statement about equal-valued samples. -/
theorem equal_ram_sample_timer_survives_cpu_fire :
    (((WatchdogMonitor.init 80 80 1).run 0 [((85 : ℚ), (85 : ℚ)), ((85 : ℚ), (80 : ℚ))]).2 =
      some (1, RebootReason.cpu)) ∧
    (((WatchdogMonitor.init 80 80 1).run 0
        [((85 : ℚ), (85 : ℚ)), ((85 : ℚ), (80 : ℚ))]).1.ram_high_start = some 0) := by
  constructor <;>
    norm_num [WatchdogMonitor.run, WatchdogMonitor.init, WatchdogMonitor.check_and_trigger,
      WatchdogMonitor.check_ram, WatchdogMonitor.check_tail, WatchdogMonitor.log_status]

/-- C5: dropping to at-or-below the threshold clears the timer and a
later excursion restarts it from the current tick.  Concretely (threshold
80, duration 15, 1-second ticks): `[85]*10 ++ [50] ++ [85]*10` never
fires; after the `50` the timer is `None`; one more `85` restarts it at
`some 11`; and extending the second excursion to 16 ticks makes it fire
at tick 26 — 15 elapsed seconds after its own start — independently of
the first excursion.  The final conjunct is the general restart law: from
a cleared timer, any over-threshold sample sets the timer to the current
instant. -/
theorem excursion_resets_and_restarts_fresh :
    (((WatchdogMonitor.init 80 80 15).run 0
        (List.replicate 10 ((85 : ℚ), (10 : ℚ)) ++ [((50 : ℚ), (10 : ℚ))] ++
          List.replicate 10 ((85 : ℚ), (10 : ℚ)))).2 = none) ∧
    (((WatchdogMonitor.init 80 80 15).run 0
        (List.replicate 10 ((85 : ℚ), (10 : ℚ)) ++
          [((50 : ℚ), (10 : ℚ))])).1.cpu_high_start = none) ∧
    (((WatchdogMonitor.init 80 80 15).run 0
        (List.replicate 10 ((85 : ℚ), (10 : ℚ)) ++ [((50 : ℚ), (10 : ℚ))] ++
          [((85 : ℚ), (10 : ℚ))])).1.cpu_high_start = some 11) ∧
    (((WatchdogMonitor.init 80 80 15).run 0
        (List.replicate 10 ((85 : ℚ), (10 : ℚ)) ++ [((50 : ℚ), (10 : ℚ))] ++
          List.replicate 16 ((85 : ℚ), (10 : ℚ)))).2 = some (26, RebootReason.cpu)) ∧
    (∀ (m : WatchdogMonitor) (cpu ram t : ℚ), m.cpu_high_start = none →
      m.cpu_threshold < cpu →
      (m.check_and_trigger cpu ram t).1.cpu_high_start = some t) := by
  refine ⟨?_, ?_, ?_, ?_, ?_⟩
  · norm_num [WatchdogMonitor.run, WatchdogMonitor.init, WatchdogMonitor.check_and_trigger,
      WatchdogMonitor.check_ram, WatchdogMonitor.check_tail, WatchdogMonitor.log_status,
      List.replicate]
  · norm_num [WatchdogMonitor.run, WatchdogMonitor.init, WatchdogMonitor.check_and_trigger,
      WatchdogMonitor.check_ram, WatchdogMonitor.check_tail, WatchdogMonitor.log_status,
      List.replicate]
  · norm_num [WatchdogMonitor.run, WatchdogMonitor.init, WatchdogMonitor.check_and_trigger,
      WatchdogMonitor.check_ram, WatchdogMonitor.check_tail, WatchdogMonitor.log_status,
      List.replicate]
  · norm_num [WatchdogMonitor.run, WatchdogMonitor.init, WatchdogMonitor.check_and_trigger,
      WatchdogMonitor.check_ram, WatchdogMonitor.check_tail, WatchdogMonitor.log_status,
      List.replicate]
  · intro m cpu ram t h0 hc
    rw [check_cpu_over_start ram t hc h0, check_ram_cpu_fields]

/-- C6 (amended): there is no "hold" semantics for failed samples.  A WiFi
probe that raises is handled by `check_wifi_connectivity`'s bare `except`
clause, which returns `False`, so the tick proceeds exactly as if the
probe had observed "WiFi down" (first conjunct).  For the basic monitor,
a sampler exception propagates into `run`'s `except Exception` clause,
which logs and re-raises: the loop terminates with the state as it was,
and no later sample is processed (second conjunct). -/
theorem sampler_failure_has_no_hold_semantics :
    (∀ (m : EnhancedWatchdogMonitor) (cpu ram t : ℚ),
      m.check_and_trigger cpu ram WifiProbe.err t =
        m.check_and_trigger cpu ram (WifiProbe.ok false) t) ∧
    (∀ (m : WatchdogMonitor) (t : ℕ) (rest : List (Except Unit (ℚ × ℚ))),
      m.runExc t (Except.error () :: rest) = (m, RunOutcome.raised)) :=
  ⟨fun _ _ _ _ => rfl, fun _ _ _ => rfl⟩

/-- C6 (counterexample): an unavailable WiFi sample IS treated as "down"
and DOES make a state transition.  With a fresh enhanced monitor, one
erroring probe moves `wifi_down_start` from `None` to `some 0`; and with
`wifi_timeout = 1`, two erroring probes in a row trigger the corrective
`restart_modem_usb` action at tick 1 — an action caused entirely by
unavailable samples.  This refutes "no state transition … never treated
as 'down'". -/
theorem wifi_probe_error_treated_as_down :
    (((EnhancedWatchdogMonitor.init 80 80 15 60).check_and_trigger 10 10
        WifiProbe.err 0).1.wifi_down_start = some 0) ∧
    (((EnhancedWatchdogMonitor.init 80 80 15 1).run 0
        [((10 : ℚ), (10 : ℚ), WifiProbe.err), ((10 : ℚ), (10 : ℚ), WifiProbe.err)]).2 =
      [(1, EnhancedAction.wifiRestart)]) := by
  constructor <;>
    norm_num [EnhancedWatchdogMonitor.run, EnhancedWatchdogMonitor.init,
      EnhancedWatchdogMonitor.check_and_trigger, EnhancedWatchdogMonitor.check_ram,
      EnhancedWatchdogMonitor.check_wifi, EnhancedWatchdogMonitor.check_tail,
      EnhancedWatchdogMonitor.log_status, check_wifi_connectivity]

/-- C7 (amended): `__init__` performs no validation.  Even with a CPU
threshold at most 0 and a negative sustained duration — exactly the
configurations the specification says must be rejected at construction —
the constructor yields a monitor (timers cleared) that polls normally and
here reboots at tick 1. -/
theorem constructor_accepts_invalid_config (ct rt dt : ℚ) (_hct : ct ≤ 0) (hdt : dt < 0) :
    (WatchdogMonitor.init ct rt dt).cpu_high_start = none ∧
    ((WatchdogMonitor.init ct rt dt).run 0 [(ct + 1, rt), (ct + 1, rt)]).2 =
      some (1, RebootReason.cpu) := by
  refine ⟨rfl, ?_⟩
  have hc : (WatchdogMonitor.init ct rt dt).cpu_threshold < ct + 1 := lt_add_one ct
  have hstart := check_cpu_over_start (m := WatchdogMonitor.init ct rt dt)
    rt ((0 : ℕ) : ℚ) hc rfl
  have hr2 : rt ≤ WatchdogMonitor.ram_threshold
      { WatchdogMonitor.init ct rt dt with cpu_high_start := some ((0 : ℕ) : ℚ) } := le_rfl
  have hram := check_ram_low
    (m := { WatchdogMonitor.init ct rt dt with cpu_high_start := some ((0 : ℕ) : ℚ) })
    (t := ((0 : ℕ) : ℚ)) hr2
  have htail := check_tail_fields
    { WatchdogMonitor.init ct rt dt with
      cpu_high_start := some ((0 : ℕ) : ℚ), ram_high_start := none } ((0 : ℕ) : ℚ)
  have h2 : ((WatchdogMonitor.init ct rt dt).check_and_trigger (ct + 1) rt
      ((0 : ℕ) : ℚ)).2 = none := by
    rw [hstart, hram]
    exact htail.1
  rw [run_cons_none [(ct + 1, rt)] h2, hstart, hram]
  set M := (WatchdogMonitor.check_tail
    { WatchdogMonitor.init ct rt dt with
      cpu_high_start := some ((0 : ℕ) : ℚ), ram_high_start := none } ((0 : ℕ) : ℚ)).1 with hM
  have hMc : M.cpu_threshold < ct + 1 := by
    rw [htail.2.1]
    exact hc
  have hM0 : M.cpu_high_start = some ((0 : ℕ) : ℚ) := by
    rw [htail.2.2.2.2.1]
  have hge : ((1 : ℕ) : ℚ) - ((0 : ℕ) : ℚ) ≥ M.duration_threshold := by
    rw [htail.2.2.2.1]
    push_cast
    show dt ≤ 1 - 0
    linarith
  have hfire := check_cpu_fire (m := M) rt ((1 : ℕ) : ℚ) hMc hM0 hge
  have h3 : (M.check_and_trigger (ct + 1) rt ((1 : ℕ) : ℚ)).2 = some RebootReason.cpu := by
    rw [hfire]
  rw [run_cons_some [] h3]

/-- C7 (witness): the amended claim at the concrete invalid configuration
`cpu_threshold = 0`, `ram_threshold = 0`, `duration_threshold = -1`. -/
theorem constructor_accepts_invalid_config_witness :
    (WatchdogMonitor.init 0 0 (-1)).cpu_high_start = none ∧
    ((WatchdogMonitor.init 0 0 (-1)).run 0 [((0 : ℚ) + 1, 0), ((0 : ℚ) + 1, 0)]).2 =
      some (1, RebootReason.cpu) :=
  constructor_accepts_invalid_config 0 0 (-1) (by norm_num) (by norm_num)

/-- C7 (counterexample): a monitor constructed with `cpu_threshold = 0`
(≤ 0) and `duration_threshold = -1` (< 0) is not refused: it polls the
sample stream and reboots the machine at tick 1.  This refutes "fails
fast at construction time … an error is raised before any monitoring
begins". -/
theorem invalid_config_monitor_polls_and_reboots :
    ((WatchdogMonitor.init 0 80 (-1)).run 0 [((5 : ℚ), (0 : ℚ)), ((5 : ℚ), (0 : ℚ))]).2 =
      some (1, RebootReason.cpu) := by
  norm_num [WatchdogMonitor.run, WatchdogMonitor.init, WatchdogMonitor.check_and_trigger,
    WatchdogMonitor.check_ram, WatchdogMonitor.check_tail, WatchdogMonitor.log_status]

/-- C8: `analyze_log_line` tries the four pattern sets in the fixed order
critical, error, warning, info (case-insensitively) and returns the first
severity whose set matches; a line matching no pattern is `debug`.
Concretely, `"Kernel panic: oops"` is `critical` via the first pattern,
its upper-cased form is still `critical` (`re.IGNORECASE`), and a line
matching nothing is `debug`.  The last conjunct is the order
characterization: each severity is returned exactly when its own set
matches and every more severe set does not. -/
theorem classifier_ordered_first_match :
    (analyze_log_line "Kernel panic: oops".toList =
      (Severity.critical, some ["Kernel panic"])) ∧
    ((analyze_log_line "KERNEL PANIC: OOPS".toList).1 = Severity.critical) ∧
    ((analyze_log_line "just a quiet line".toList).1 = Severity.debug) ∧
    (∀ line : List Char,
      ((analyze_log_line line).1 = Severity.critical ↔
        (findMatch critical_patterns (stripLine line)).isSome = true) ∧
      ((analyze_log_line line).1 = Severity.error ↔
        ((findMatch critical_patterns (stripLine line)).isSome = false ∧
          (findMatch error_patterns (stripLine line)).isSome = true)) ∧
      ((analyze_log_line line).1 = Severity.warning ↔
        ((findMatch critical_patterns (stripLine line)).isSome = false ∧
          (findMatch error_patterns (stripLine line)).isSome = false ∧
          (findMatch warning_patterns (stripLine line)).isSome = true)) ∧
      ((analyze_log_line line).1 = Severity.info ↔
        ((findMatch critical_patterns (stripLine line)).isSome = false ∧
          (findMatch error_patterns (stripLine line)).isSome = false ∧
          (findMatch warning_patterns (stripLine line)).isSome = false ∧
          (findMatch info_patterns (stripLine line)).isSome = true)) ∧
      ((analyze_log_line line).1 = Severity.debug ↔
        ((findMatch critical_patterns (stripLine line)).isSome = false ∧
          (findMatch error_patterns (stripLine line)).isSome = false ∧
          (findMatch warning_patterns (stripLine line)).isSome = false ∧
          (findMatch info_patterns (stripLine line)).isSome = false))) := by
  refine ⟨by decide, by decide, by decide, ?_⟩
  intro line
  cases h1 : findMatch critical_patterns (stripLine line) with
  | some p => simp [analyze_log_line, h1]
  | none =>
    cases h2 : findMatch error_patterns (stripLine line) with
    | some p => simp [analyze_log_line, h1, h2]
    | none =>
      cases h3 : findMatch warning_patterns (stripLine line) with
      | some p => simp [analyze_log_line, h1, h2, h3]
      | none =>
        cases h4 : findMatch info_patterns (stripLine line) with
        | some p => simp [analyze_log_line, h1, h2, h3, h4]
        | none => simp [analyze_log_line, h1, h2, h3, h4]

/-- C9: the status line is throttled at five seconds independently of the
call cadence.  Over every sequence of `log_status` calls, consecutive
emitted instants are at least 5 apart (first conjunct); a call emits iff
at least 5 seconds elapsed since the recorded last emission, and an
emission records its own instant (second conjunct). -/
theorem status_lines_throttled_to_five_seconds :
    (∀ (m : WatchdogMonitor) (ts : List ℚ),
      List.Chain' (fun a b => 5 ≤ b - a) (m.logRun ts)) ∧
    (∀ (m : WatchdogMonitor) (t : ℚ),
      ((m.log_status t).2 = true ↔ 5 ≤ t - m.last_log_time) ∧
      ((m.log_status t).2 = true → (m.log_status t).1.last_log_time = t)) := by
  constructor
  · intro m ts
    exact (logRun_chain ts m).tail
  · intro m t
    unfold WatchdogMonitor.log_status
    split_ifs with h
    · exact ⟨by simpa using h, fun _ => rfl⟩
    · exact ⟨by simpa using h, fun hx => by simp at hx⟩

/-- C10: metric checks are ordered with early exit.  If the CPU branch of
`check_and_trigger` reboots, the method returns at once: the basic
monitor's `ram_high_start` and the enhanced monitor's `ram_high_start`
and `wifi_down_start` keep exactly their pre-tick values — neither
started, advanced, nor cleared.  The final conjunct exhibits a tick on
which this happens with RAM also past its threshold and its timer
running. -/
theorem cpu_fire_leaves_other_timers_untouched :
    (∀ (m : WatchdogMonitor) (cpu ram t : ℚ),
      (m.check_and_trigger cpu ram t).2 = some RebootReason.cpu →
      (m.check_and_trigger cpu ram t).1.ram_high_start = m.ram_high_start) ∧
    (∀ (m : EnhancedWatchdogMonitor) (cpu ram : ℚ) (probe : WifiProbe) (t : ℚ),
      (m.check_and_trigger cpu ram probe t).2 = some EnhancedAction.rebootCPU →
      (m.check_and_trigger cpu ram probe t).1.ram_high_start = m.ram_high_start ∧
      (m.check_and_trigger cpu ram probe t).1.wifi_down_start = m.wifi_down_start) ∧
    (((⟨80, 80, 1, some 0, some 0, 0⟩ : WatchdogMonitor).check_and_trigger 85 85 1).2 =
      some RebootReason.cpu ∧
      ((⟨80, 80, 1, some 0, some 0, 0⟩ : WatchdogMonitor).check_and_trigger
        85 85 1).1.ram_high_start = some 0) := by
  refine ⟨?_, ?_, ?_⟩
  · intro m cpu ram t h
    rw [check_cpu_fire_frame m cpu ram t h]
  · intro m cpu ram probe t h
    rw [echeck_cpu_fire_frame m cpu ram probe t h]
    exact ⟨rfl, rfl⟩
  · constructor <;>
      norm_num [WatchdogMonitor.check_and_trigger, WatchdogMonitor.check_ram,
        WatchdogMonitor.check_tail, WatchdogMonitor.log_status]
